import Mathlib

/-!
Shallow embedding of the RLCU pad-communication core (`rlcu_socket.py`,
`globals.py`).  Byte strings are modelled as `List Nat` with each element
below 256; the two float32 telemetry fields are kept as their 32-bit
little-endian bit patterns in the codec, and as rational values where the
code only compares them against thresholds; Python dictionaries keyed by
pad number are modelled as `List Pad` (the fixed fleet) or as total
functions with the dictionary's `.get` default.
-/

/-- Number of pad slots (`globals.n_pads`). -/
def n_pads : Nat := 6

/-- The shared record kept per pad slot (`globals.Pad.__init__`). -/
structure Pad where
  team_id : Nat
  ip_address : String
  rssi : Rat
  rssi_color : String
  continuity : Bool
  continuity_color : String
  voltage : Rat
  voltage_color : String
  arm_status : Bool
  arm_color : String
  last_seen : Nat
  last_seen_color : String
  buzzer_on : Bool
  led_on : Bool
  rdy_on : Bool
deriving Repr, DecidableEq

/-- Default pad record, with the field values of `Pad.__init__`. -/
def Pad.init : Pad :=
  { team_id := 0
    ip_address := ""
    rssi := -100
    rssi_color := "red"
    continuity := false
    continuity_color := "red"
    voltage := 0
    voltage_color := "red"
    arm_status := false
    arm_color := "green"
    last_seen := 0
    last_seen_color := "black"
    buzzer_on := false
    led_on := false
    rdy_on := false }

/-- `globals.pad_data`: one fresh record per slot. -/
def pad_data_init : List Pad := List.replicate n_pads Pad.init

/-- ASCII bytes of the shared secret `AUTH_KEY = "RLCU!2025"`. -/
def AUTH_KEY : List Nat := [82, 76, 67, 85, 33, 50, 48, 50, 53]

/-- `DISCOVERY_STRUCT.size` for layout `!B16s` (1 id byte + 16 token bytes). -/
def DISCOVERY_SIZE : Nat := 17

/-- The slot index carried by a discovery datagram (its first byte). -/
def discovery_pad_num (data : List Nat) : Nat := data.headD 0

/-- The decoded token of a discovery datagram: the 16 raw token bytes,
trimmed at the first null byte (`split(b"\x00", 1)[0]`) and then decoded
as ASCII with `errors="ignore"`, which drops every byte of value 128 or
more. -/
def discovery_auth (data : List Nat) : List Nat :=
  (((data.drop 1).take 16).takeWhile (fun b => b ≠ 0)).filter (fun b => b < 128)

/-- The token bytes merely trimmed at the first null byte, before the
ASCII decode.  This follows the spec sentence "token (trimmed at the
first null byte)" and exists to compare the spec's reading with the
code's `discovery_auth`. -/
def spec_trimmed_token (data : List Nat) : List Nat :=
  ((data.drop 1).take 16).takeWhile (fun b => b ≠ 0)

/-- `RLCUSocket._handle_discovery`, restricted to its effect on the shared
pad store: reject short packets, packets whose decoded token differs from
the secret, and out-of-range slot indices; otherwise bind the sender's
address to the slot and reset its staleness age. -/
def handle_discovery (pads : List Pad) (data : List Nat) (ip_address : String) :
    List Pad :=
  if data.length < DISCOVERY_SIZE then pads
  else if discovery_auth data ≠ AUTH_KEY then pads
  else if n_pads ≤ discovery_pad_num data then pads
  else
    match pads[discovery_pad_num data]? with
    | none => pads
    | some pad =>
        pads.set (discovery_pad_num data)
          { pad with ip_address := ip_address, last_seen := 0, last_seen_color := "black" }

/-- Processing a sequence of discovery packets in order. -/
def process_discoveries (pads : List Pad) (packets : List (List Nat × String)) :
    List Pad :=
  packets.foldl (fun ps p => handle_discovery ps p.1 p.2) pads

/-- The claim's store invariant, written from the spec's words: no two
distinct slots hold equal non-empty `ip_address` fields (the non-empty
addresses, taken with multiplicity, have no duplicate). -/
def spec_unique_ip_invariant (pads : List Pad) : Prop :=
  ((pads.map Pad.ip_address).filter (fun s => s ≠ "")).Nodup

instance (pads : List Pad) : Decidable (spec_unique_ip_invariant pads) := by
  unfold spec_unique_ip_invariant; infer_instance

/-- `TELEMETRY_STRUCT.size` for layout `<ff??Bx`. -/
def TELEMETRY_SIZE : Nat := 12

/-- Little-endian reconstruction of a 32-bit word from four bytes. -/
def le32 (b0 b1 b2 b3 : Nat) : Nat :=
  b0 + 256 * b1 + 65536 * b2 + 16777216 * b3

/-- The four little-endian bytes of a 32-bit word. -/
def le32_bytes (v : Nat) : List Nat :=
  [v % 256, v / 256 % 256, v / 65536 % 256, v / 16777216 % 256]

/-- A decoded telemetry record (`RLCUSocket._parse_telemetry`'s result).
The two float32 fields are carried as their 32-bit patterns. -/
structure Telemetry where
  voltage_bits : Nat
  rssi_bits : Nat
  rbf_status : Bool
  squib_continuity : Bool
  igniter_id : Nat
deriving Repr, DecidableEq

/-- `RLCUSocket._parse_telemetry`: a frame of any other size raises
(`Option.none` here); otherwise unpack `<ff??Bx`: two little-endian
32-bit floats, two booleans (any non-zero byte is true), the igniter id
byte, and one ignored padding byte. -/
def parse_telemetry (frame : List Nat) : Option Telemetry :=
  if frame.length ≠ TELEMETRY_SIZE then none
  else some
    { voltage_bits := le32 (frame.getD 0 0) (frame.getD 1 0) (frame.getD 2 0) (frame.getD 3 0)
      rssi_bits := le32 (frame.getD 4 0) (frame.getD 5 0) (frame.getD 6 0) (frame.getD 7 0)
      rbf_status := frame.getD 8 0 ≠ 0
      squib_continuity := frame.getD 9 0 ≠ 0
      igniter_id := frame.getD 10 0 }

/-- Packing the five telemetry fields with the same `<ff??Bx` layout
(`struct.Struct.pack`): float bit patterns little-endian, booleans as a
single 0/1 byte, the id byte, and a zero padding byte. -/
def encode_telemetry (t : Telemetry) : List Nat :=
  le32_bytes t.voltage_bits ++ le32_bytes t.rssi_bits ++
    [if t.rbf_status then 1 else 0, if t.squib_continuity then 1 else 0,
     t.igniter_id % 256, 0]

/-- The inner `while len(buffer) >= TELEMETRY_STRUCT.size` of
`RLCUSocket._telemetry_loop`: dequeue every complete frame from the
front of the buffer, in order, and return the frames together with the
remaining (incomplete) buffer. -/
def drain_frames (b : List Nat) : List (List Nat) × List Nat :=
  if _h : TELEMETRY_SIZE ≤ b.length then
    (b.take TELEMETRY_SIZE :: (drain_frames (b.drop TELEMETRY_SIZE)).1,
     (drain_frames (b.drop TELEMETRY_SIZE)).2)
  else ([], b)
termination_by b.length
decreasing_by
  simp only [List.length_drop, TELEMETRY_SIZE] at *; omega

/-- `RLCUSocket._telemetry_loop`, restricted to how it frames the byte
stream: each list entry is one successful `recv` result (`if chunk:`
branch); an empty entry is a zero-length read, on which the loop breaks
(peer closed); timeouts (`chunk is None`) leave the buffer untouched and
are not modelled as entries.  The result is the sequence of complete
frames decoded and applied, in arrival order. -/
def telemetry_process (chunks : List (List Nat)) (buffer : List Nat) :
    List (List Nat) :=
  match chunks with
  | [] => []
  | c :: cs =>
      if c.isEmpty then []
      else
        (drain_frames (buffer ++ c)).1 ++
          telemetry_process cs (drain_frames (buffer ++ c)).2

/-- One entry of the per-pad command history dictionary
(`RLCUSocket._command_history`). -/
structure CommandHistory where
  mask : Nat
  success : Bool
  timestamp : Rat
deriving Repr, DecidableEq

/-- Initial command history entry for every pad. -/
def command_history_init : CommandHistory :=
  { mask := 0, success := false, timestamp := 0 }

/-- The new persistent mask computed by `send_command` under the command
lock: set the bit when `enable is True and command`, clear it when
`enable is False and command` (Python `state &= ~command`; on
non-negative integers clearing a submask is subtracting `state & command`),
otherwise keep the state. -/
def command_new_state (state0 command : Nat) (enable : Option Bool) : Nat :=
  if enable = some true ∧ command ≠ 0 then state0 ||| command
  else if enable = some false ∧ command ≠ 0 then state0 - (state0 &&& command)
  else state0

/-- The mask `send_command` transmits: the persisted new state when
`enable is not None`, and `state | (command if command else 0)` for a
momentary command. -/
def command_mask (state0 command : Nat) (enable : Option Bool) : Nat :=
  if enable = none then state0 ||| command
  else command_new_state state0 command enable

/-- The outcome of one `send_command` call: the boolean returned to the
caller, the byte handed to `conn.sendall` when a send was attempted, and
the command register (`_command_state`, `_command_history`) after the
call. -/
structure SendOutcome where
  ok : Bool
  transmitted : Option Nat
  command_state : Nat → Nat
  command_history : Nat → CommandHistory

/-- The address `send_command` looks up for a slot:
`pad_data.get(pad_num).ip_address if pad_num in pad_data else ""`. -/
def slot_ip (pads : List Pad) (pad_num : Nat) : String :=
  match pads[pad_num]? with
  | some pad => pad.ip_address
  | none => ""

/-- `RLCUSocket.send_command`.  The environment is explicit: `pads` is
the shared store consulted for the slot's `ip_address`, `connections`
the set of addresses with a live TCP session, `send_ok` whether
`conn.sendall` succeeds or raises `OSError`, and `now` the `time.time()`
stamp.  The transmitted payload is the single byte `mask & 0xFF`. -/
def send_command (pads : List Pad) (connections : List String)
    (command_state : Nat → Nat) (command_history : Nat → CommandHistory)
    (pad_num command : Nat) (enable : Option Bool) (send_ok : Bool)
    (now : Rat) : SendOutcome :=
  let ip_address := slot_ip pads pad_num
  if ip_address = "" then
    ⟨false, none, command_state, command_history⟩
  else if ip_address ∉ connections then
    ⟨false, none, command_state, command_history⟩
  else
    let state0 := command_state pad_num
    let cs := if enable = none then command_state
      else Function.update command_state pad_num
        (command_new_state state0 command enable)
    let mask := command_mask state0 command enable
    ⟨send_ok, some (mask % 256),
     cs, Function.update command_history pad_num ⟨mask, send_ok, now⟩⟩

/-- An observable action of a connection worker, in program order. -/
inductive WorkerEvent where
  | sent (byte : Nat)
  | telemetry_applied (frame : List Nat)
deriving Repr, DecidableEq

/-- One iteration of `RLCUSocket._connection_worker` after
`socket.create_connection`: on connect failure nothing happens; on
success the worker first sends the slot's stored persistent mask as one
byte, records the re-sync outcome (`send_ok`) in the command history,
and then — whether or not that send failed — runs the telemetry loop
over the incoming chunks. -/
def connection_attempt (command_state : Nat → Nat)
    (command_history : Nat → CommandHistory) (pad_num : Nat)
    (connect_ok send_ok : Bool) (chunks : List (List Nat)) (now : Rat) :
    List WorkerEvent × (Nat → CommandHistory) :=
  if connect_ok then
    (WorkerEvent.sent (command_state pad_num % 256) ::
       (telemetry_process chunks []).map WorkerEvent.telemetry_applied,
     Function.update command_history pad_num
       ⟨command_state pad_num, send_ok, now⟩)
  else ([], command_history)

/-- The decoded telemetry values as `RLCUSocket._apply_telemetry`
consumes them; the two floats appear here as the rational values the
code compares against its thresholds. -/
structure TelemetryValues where
  voltage : Rat
  rssi : Rat
  rbf_status : Bool
  squib_continuity : Bool
  igniter_id : Nat
deriving Repr, DecidableEq

/-- `RLCUSocket._apply_telemetry` on one pad record: reset the staleness
age, then store every raw value together with its derived colour in the
same update. -/
def apply_telemetry (pad : Pad) (ip_address : String) (t : TelemetryValues) :
    Pad :=
  { pad with
    ip_address := ip_address
    last_seen := 0
    last_seen_color := "black"
    voltage := t.voltage
    voltage_color := if t.voltage ≥ 10 then "green" else "red"
    rssi := t.rssi
    rssi_color :=
      if t.rssi > -50 then "green"
      else if t.rssi > -70 then "yellow"
      else "red"
    continuity := t.squib_continuity
    continuity_color := if t.squib_continuity then "green" else "red"
    arm_status := t.rbf_status
    arm_color := if t.rbf_status then "red" else "green" }

/-- `RLCUSocket._apply_telemetry` on the shared store: a missing slot is
left untouched (`if not pad: return`). -/
def apply_telemetry_store (pads : List Pad) (pad_num : Nat)
    (ip_address : String) (t : TelemetryValues) : List Pad :=
  match pads[pad_num]? with
  | none => pads
  | some pad => pads.set pad_num (apply_telemetry pad ip_address t)

/-- One pass of `RLCUSocket._timer_loop`: every slot's `last_seen` grows
by one and its staleness colour is recomputed (`"red"` when the new age
exceeds 30, else `"black"`). -/
def timer_step (pads : List Pad) : List Pad :=
  pads.map fun pad =>
    { pad with
      last_seen := pad.last_seen + 1
      last_seen_color := if pad.last_seen + 1 > 30 then "red" else "black" }

/-- A well-formed discovery datagram claiming the given slot: the slot
byte, the 9 secret bytes, and 7 null padding bytes. -/
def discovery_packet (slot : Nat) : List Nat :=
  slot :: (AUTH_KEY ++ List.replicate 7 0)

/-- A discovery datagram whose token bytes are the secret followed by a
non-ASCII byte (200) before the null padding: its trimmed token differs
from the secret, yet the ASCII decode with `errors="ignore"` drops the
stray byte. -/
def bad_token_packet : List Nat :=
  0 :: (AUTH_KEY ++ 200 :: List.replicate 6 0)

/-- A fresh store in which slot 0 is bound to the given address. -/
def pads_with_ip (ip : String) : List Pad :=
  pad_data_init.set 0 { Pad.init with ip_address := ip }

lemma le32_lt {b0 b1 b2 b3 : Nat} (h0 : b0 < 256) (h1 : b1 < 256)
    (h2 : b2 < 256) (h3 : b3 < 256) : le32 b0 b1 b2 b3 < 4294967296 := by
  unfold le32; omega

lemma le32_bytes_le32 {b0 b1 b2 b3 : Nat} (h0 : b0 < 256) (h1 : b1 < 256)
    (h2 : b2 < 256) (h3 : b3 < 256) :
    le32_bytes (le32 b0 b1 b2 b3) = [b0, b1, b2, b3] := by
  simp only [le32_bytes, le32, List.cons.injEq, and_true]
  omega

lemma getD_lt_256 (l : List Nat) (i : Nat) (h : ∀ b ∈ l, b < 256) :
    l.getD i 0 < 256 := by
  induction l generalizing i with
  | nil => simp [List.getD]
  | cons a l ih =>
    cases i with
    | zero => exact h a (by simp)
    | succ i =>
      rw [List.getD_cons_succ]
      exact ih i fun b hb => h b (by simp [hb])

/-- Field-level codec round trip: packing any record with in-range bit
patterns and id, then unpacking, returns the record unchanged. -/
lemma parse_encode_telemetry (t : Telemetry)
    (hv : t.voltage_bits < 4294967296) (hr : t.rssi_bits < 4294967296)
    (hi : t.igniter_id < 256) :
    parse_telemetry (encode_telemetry t) = some t := by
  obtain ⟨v, r, rb, sc, id⟩ := t
  simp only at hv hr hi
  have hid : id % 256 = id := Nat.mod_eq_of_lt hi
  simp only [encode_telemetry, le32_bytes, parse_telemetry, TELEMETRY_SIZE]
  norm_num [List.getD, le32, hid]
  omega

/-- C5: for every valid 12-byte telemetry frame, decoding it and
re-encoding the five decoded fields with the same `<ff??Bx` layout
round-trips all five fields exactly — the float32 bit patterns
bit-exact, the booleans exact, the igniter id exact. -/
theorem telemetry_roundtrip_C5 (frame : List Nat) (t : Telemetry)
    (hbytes : ∀ b ∈ frame, b < 256)
    (hparse : parse_telemetry frame = some t) :
    parse_telemetry (encode_telemetry t) = some t := by
  have hlen : ¬ frame.length ≠ TELEMETRY_SIZE := by
    intro h
    rw [parse_telemetry, if_pos h] at hparse
    exact Option.noConfusion hparse
  rw [parse_telemetry, if_neg hlen, Option.some.injEq] at hparse
  subst hparse
  exact parse_encode_telemetry _
    (le32_lt (getD_lt_256 _ _ hbytes) (getD_lt_256 _ _ hbytes)
      (getD_lt_256 _ _ hbytes) (getD_lt_256 _ _ hbytes))
    (le32_lt (getD_lt_256 _ _ hbytes) (getD_lt_256 _ _ hbytes)
      (getD_lt_256 _ _ hbytes) (getD_lt_256 _ _ hbytes))
    (getD_lt_256 _ _ hbytes)

/-- Witness for C5 on the concrete frame holding the float32 patterns of
10.0 and -48.0, interlock false, continuity true, igniter 2. -/
theorem telemetry_roundtrip_C5_witness :
    (∀ b ∈ ([0, 0, 32, 65, 0, 0, 64, 194, 0, 1, 2, 0] : List Nat), b < 256) ∧
    parse_telemetry ([0, 0, 32, 65, 0, 0, 64, 194, 0, 1, 2, 0] : List Nat) =
      some ⟨le32 0 0 32 65, le32 0 0 64 194, false, true, 2⟩ ∧
    parse_telemetry
        (encode_telemetry ⟨le32 0 0 32 65, le32 0 0 64 194, false, true, 2⟩) =
      some ⟨le32 0 0 32 65, le32 0 0 64 194, false, true, 2⟩ :=
  ⟨by decide, by decide,
   telemetry_roundtrip_C5 [0, 0, 32, 65, 0, 0, 64, 194, 0, 1, 2, 0] _
     (by decide) (by decide)⟩

/-- C8: `_apply_telemetry` recomputes every derived field in the same
update, as a pure function of the raw values: voltage is OK (green)
iff it is at least 10, the rssi band is strong (green) iff rssi is above
-50, medium (yellow) iff rssi is in (-70, -50], weak (red) otherwise,
the continuity light follows the continuity flag, and `arm_status`
(coloured red, the unsafe state) follows the interlock-removed flag.
In particular the frame (11.4, -48.0, false, true, 2) yields an OK
voltage, a strong rssi band, continuity true and arm_status false. -/
theorem apply_telemetry_derived_C8 (pad : Pad) (ip : String)
    (t : TelemetryValues) :
    ((apply_telemetry pad ip t).voltage_color = "green" ↔ 10 ≤ t.voltage) ∧
    ((apply_telemetry pad ip t).rssi_color = "green" ↔ -50 < t.rssi) ∧
    ((apply_telemetry pad ip t).rssi_color = "yellow" ↔
        -70 < t.rssi ∧ t.rssi ≤ -50) ∧
    ((apply_telemetry pad ip t).rssi_color = "red" ↔ t.rssi ≤ -70) ∧
    ((apply_telemetry pad ip t).continuity = t.squib_continuity) ∧
    ((apply_telemetry pad ip t).continuity_color = "green" ↔
        t.squib_continuity = true) ∧
    ((apply_telemetry pad ip t).arm_status = t.rbf_status) ∧
    ((apply_telemetry pad ip t).arm_color = "red" ↔ t.rbf_status = true) ∧
    ((apply_telemetry pad ip ⟨57/5, -48, false, true, 2⟩).voltage_color
        = "green" ∧
      (apply_telemetry pad ip ⟨57/5, -48, false, true, 2⟩).rssi_color
        = "green" ∧
      (apply_telemetry pad ip ⟨57/5, -48, false, true, 2⟩).continuity = true ∧
      (apply_telemetry pad ip ⟨57/5, -48, false, true, 2⟩).arm_status
        = false) := by
  refine ⟨?_, ?_, ?_, ?_, rfl, ?_, rfl, ?_, ?_, ?_, rfl, rfl⟩
  · simp only [apply_telemetry]
    split_ifs <;> simp_all
  · simp only [apply_telemetry]
    split_ifs <;> simp_all
  · simp only [apply_telemetry]
    split_ifs <;> simp_all
  · simp only [apply_telemetry]
    split_ifs <;> simp_all
    linarith
  · simp only [apply_telemetry]
    split_ifs <;> simp_all
  · simp only [apply_telemetry]
    split_ifs <;> simp_all
  · simp only [apply_telemetry]
    norm_num
  · simp only [apply_telemetry]
    norm_num

lemma command_mask_zero (s : Nat) (enable : Option Bool) :
    command_mask s 0 enable = s := by
  rcases enable with _ | b
  · simp [command_mask]
  · simp [command_mask, command_new_state]

lemma command_new_state_zero (s : Nat) (enable : Option Bool) :
    command_new_state s 0 enable = s := by
  simp [command_new_state]

/-- C4: `send_command` on a slot with an empty `ip_address` fails and
leaves the stored mask (and the whole register) unchanged; on a
connected slot a momentary call (`enable = None`) transmits
`stored_mask | bit` while the stored mask after the call equals the
stored mask before it. -/
theorem send_command_no_ip_momentary_C4 (pads : List Pad)
    (connections : List String) (cs : Nat → Nat)
    (hist : Nat → CommandHistory) (pad_num command : Nat)
    (enable : Option Bool) (send_ok : Bool) (now : Rat) :
    (slot_ip pads pad_num = "" →
      (send_command pads connections cs hist pad_num command enable send_ok
          now).ok = false ∧
      (send_command pads connections cs hist pad_num command enable send_ok
          now).transmitted = none ∧
      (send_command pads connections cs hist pad_num command enable send_ok
          now).command_state = cs) ∧
    (slot_ip pads pad_num ≠ "" → slot_ip pads pad_num ∈ connections →
      cs pad_num < 256 → command < 256 →
      (send_command pads connections cs hist pad_num command none send_ok
          now).transmitted = some (cs pad_num ||| command) ∧
      (send_command pads connections cs hist pad_num command none send_ok
          now).command_state = cs) := by
  constructor
  · intro h
    simp [send_command, h]
  · intro h1 h2 h3 h4
    have h3' : cs pad_num < 2 ^ 8 := h3
    have h4' : command < 2 ^ 8 := h4
    have hor : cs pad_num ||| command < 256 := Nat.or_lt_two_pow h3' h4'
    simp [send_command, h1, h2, command_mask, Nat.mod_eq_of_lt hor]

/-- Witness for C4: slot 0 of a fresh store has no address, so a
persistent set of bit 2 fails without touching the register; on a store
where slot 0 is bound and connected, a momentary bit-2 command with
stored mask 1 transmits 3 and keeps the stored mask. -/
theorem send_command_no_ip_momentary_C4_witness :
    ((send_command pad_data_init [] (fun _ => 0)
        (fun _ => command_history_init) 0 2 (some true) true 0).ok = false ∧
      (send_command pad_data_init [] (fun _ => 0)
        (fun _ => command_history_init) 0 2 (some true) true 0).transmitted
        = none ∧
      (send_command pad_data_init [] (fun _ => 0)
        (fun _ => command_history_init) 0 2 (some true) true 0).command_state
        = fun _ => 0) ∧
    ((send_command (pads_with_ip "10.0.0.1") ["10.0.0.1"] (fun _ => 1)
        (fun _ => command_history_init) 0 2 none true 0).transmitted
        = some 3 ∧
      (send_command (pads_with_ip "10.0.0.1") ["10.0.0.1"] (fun _ => 1)
        (fun _ => command_history_init) 0 2 none true 0).command_state
        = fun _ => 1) :=
  ⟨(send_command_no_ip_momentary_C4 pad_data_init [] (fun _ => 0)
      (fun _ => command_history_init) 0 2 (some true) true 0).1 (by decide),
   (send_command_no_ip_momentary_C4 (pads_with_ip "10.0.0.1") ["10.0.0.1"]
      (fun _ => 1) (fun _ => command_history_init) 0 2 none true 0).2
     (by decide) (by decide) (by decide) (by decide)⟩

/-- C10: on a bound, connected slot, `send_command` with command bit 0
(falsy) leaves the whole stored-mask register unchanged for every
`enable`, still transmits exactly one byte equal to the slot's current
stored mask, records the outcome and timestamp in the command history
(leaving other slots' history alone), and returns whether the byte was
handed to the transport. -/
theorem send_command_zero_bit_C10 (pads : List Pad)
    (connections : List String) (cs : Nat → Nat)
    (hist : Nat → CommandHistory) (pad_num : Nat) (enable : Option Bool)
    (send_ok : Bool) (now : Rat)
    (hip : slot_ip pads pad_num ≠ "")
    (hconn : slot_ip pads pad_num ∈ connections)
    (hlt : cs pad_num < 256) :
    (send_command pads connections cs hist pad_num 0 enable send_ok
        now).command_state = cs ∧
    (send_command pads connections cs hist pad_num 0 enable send_ok
        now).transmitted = some (cs pad_num) ∧
    (send_command pads connections cs hist pad_num 0 enable send_ok
        now).command_history pad_num = ⟨cs pad_num, send_ok, now⟩ ∧
    (∀ j, j ≠ pad_num →
      (send_command pads connections cs hist pad_num 0 enable send_ok
          now).command_history j = hist j) ∧
    (send_command pads connections cs hist pad_num 0 enable send_ok
        now).ok = send_ok := by
  refine ⟨?_, ?_, ?_, ?_, ?_⟩
  · rcases enable with _ | b
    · simp [send_command, hip, hconn]
    · simp [send_command, hip, hconn, command_new_state_zero,
        Function.update_eq_self]
  · simp [send_command, hip, hconn, command_mask_zero, Nat.mod_eq_of_lt hlt]
  · simp [send_command, hip, hconn, command_mask_zero, Function.update_same]
  · intro j hj
    simp [send_command, hip, hconn, Function.update_noteq hj]
  · simp [send_command, hip, hconn]

/-- Witness for C10: slot 0 bound and connected, stored mask 5, a
momentary zero command with a failing transport. -/
theorem send_command_zero_bit_C10_witness :
    (send_command (pads_with_ip "10.0.0.1") ["10.0.0.1"] (fun _ => 5)
        (fun _ => command_history_init) 0 0 none false 7).command_state
      = (fun _ => 5) ∧
    (send_command (pads_with_ip "10.0.0.1") ["10.0.0.1"] (fun _ => 5)
        (fun _ => command_history_init) 0 0 none false 7).transmitted
      = some 5 ∧
    (send_command (pads_with_ip "10.0.0.1") ["10.0.0.1"] (fun _ => 5)
        (fun _ => command_history_init) 0 0 none false 7).command_history 0
      = ⟨5, false, 7⟩ ∧
    (∀ j, j ≠ 0 →
      (send_command (pads_with_ip "10.0.0.1") ["10.0.0.1"] (fun _ => 5)
          (fun _ => command_history_init) 0 0 none false 7).command_history j
        = command_history_init) ∧
    (send_command (pads_with_ip "10.0.0.1") ["10.0.0.1"] (fun _ => 5)
        (fun _ => command_history_init) 0 0 none false 7).ok = false :=
  send_command_zero_bit_C10 (pads_with_ip "10.0.0.1") ["10.0.0.1"]
    (fun _ => 5) (fun _ => command_history_init) 0 none false 7
    (by decide) (by decide) (by decide)

/-- C2 (amended): when the command byte write fails on a live connection,
`send_command` reports `False` and the register records the attempted
mask — the history entry stores it with a failure flag, and for a
persistent call (`enable` not `None`) the stored mask keeps it for the
next re-sync; when the slot has no address or no live connection, the
call reports `False` *without touching the register at all*. -/
theorem send_command_failure_C2 (pads : List Pad)
    (connections : List String) (cs : Nat → Nat)
    (hist : Nat → CommandHistory) (pad_num command : Nat)
    (enable : Option Bool) (now : Rat) :
    (slot_ip pads pad_num = "" ∨ slot_ip pads pad_num ∉ connections →
      (send_command pads connections cs hist pad_num command enable false
          now).ok = false ∧
      (send_command pads connections cs hist pad_num command enable false
          now).command_state = cs ∧
      (send_command pads connections cs hist pad_num command enable false
          now).command_history = hist) ∧
    (slot_ip pads pad_num ≠ "" → slot_ip pads pad_num ∈ connections →
      (send_command pads connections cs hist pad_num command enable false
          now).ok = false ∧
      (send_command pads connections cs hist pad_num command enable false
          now).command_history pad_num
        = ⟨command_mask (cs pad_num) command enable, false, now⟩ ∧
      (enable ≠ none →
        (send_command pads connections cs hist pad_num command enable false
            now).command_state pad_num
          = command_mask (cs pad_num) command enable)) := by
  constructor
  · intro h
    by_cases hip : slot_ip pads pad_num = ""
    · simp [send_command, hip]
    · rcases h with h | h
      · exact absurd h hip
      · simp [send_command, hip, h]
  · intro h1 h2
    refine ⟨?_, ?_, ?_⟩
    · simp [send_command, h1, h2]
    · simp [send_command, h1, h2, Function.update_same]
    · intro hno
      simp [send_command, h1, h2, hno, command_mask, Function.update_same]

/-- Counterexample to C2 as stated: slot 0 is bound to an address but
has no live connection; attempting to set bit 1 returns `False`, yet
neither the stored mask nor the history records the attempted mask 1 —
the register is left entirely at its initial state. -/
theorem send_command_failure_C2_counterexample :
    (send_command (pads_with_ip "10.0.0.1") [] (fun _ => 0)
        (fun _ => command_history_init) 0 1 (some true) false 0).ok
      = false ∧
    command_mask 0 1 (some true) = 1 ∧
    (send_command (pads_with_ip "10.0.0.1") [] (fun _ => 0)
        (fun _ => command_history_init) 0 1 (some true) false 0).command_state
        0 = 0 ∧
    (send_command (pads_with_ip "10.0.0.1") [] (fun _ => 0)
        (fun _ => command_history_init) 0 1 (some true) false
        0).command_history 0 = command_history_init := by
  decide

/-- Witness for C2 (amended): a failing write on a live connection with
stored mask 0, setting bit 1, records mask 1 as a failed delivery and
persists it for re-sync; and a call without a connection leaves the
register untouched. -/
theorem send_command_failure_C2_witness :
    ((send_command (pads_with_ip "10.0.0.2") [] (fun _ => 0)
        (fun _ => command_history_init) 0 1 (some true) false 0).ok = false ∧
      (send_command (pads_with_ip "10.0.0.2") [] (fun _ => 0)
        (fun _ => command_history_init) 0 1 (some true) false
        0).command_state = (fun _ => 0) ∧
      (send_command (pads_with_ip "10.0.0.2") [] (fun _ => 0)
        (fun _ => command_history_init) 0 1 (some true) false
        0).command_history = (fun _ => command_history_init)) ∧
    ((send_command (pads_with_ip "10.0.0.2") ["10.0.0.2"] (fun _ => 0)
        (fun _ => command_history_init) 0 1 (some true) false 0).ok = false ∧
      (send_command (pads_with_ip "10.0.0.2") ["10.0.0.2"] (fun _ => 0)
        (fun _ => command_history_init) 0 1 (some true) false
        0).command_history 0 = ⟨command_mask 0 1 (some true), false, 0⟩ ∧
      ((some true : Option Bool) ≠ none →
        (send_command (pads_with_ip "10.0.0.2") ["10.0.0.2"] (fun _ => 0)
          (fun _ => command_history_init) 0 1 (some true) false
          0).command_state 0 = command_mask 0 1 (some true))) :=
  ⟨(send_command_failure_C2 (pads_with_ip "10.0.0.2") [] (fun _ => 0)
      (fun _ => command_history_init) 0 1 (some true) 0).1
      (Or.inr (by decide)),
   (send_command_failure_C2 (pads_with_ip "10.0.0.2") ["10.0.0.2"]
      (fun _ => 0) (fun _ => command_history_init) 0 1 (some true) 0).2
      (by decide) (by decide)⟩

/-- C6 (amended): a discovery packet shorter than the 17-byte layout,
or whose token — trimmed at the first null byte and then ASCII-decoded
with `errors="ignore"`, which drops non-ASCII bytes — differs from the
configured secret, or whose slot index is outside the fleet, modifies no
pad record. -/
theorem discovery_reject_C6 (pads : List Pad) (data : List Nat)
    (ip : String)
    (h : data.length < DISCOVERY_SIZE ∨ discovery_auth data ≠ AUTH_KEY ∨
      n_pads ≤ discovery_pad_num data) :
    handle_discovery pads data ip = pads := by
  unfold handle_discovery
  split_ifs with a b c
  · rfl
  · rfl
  · rfl
  · rcases h with h | h | h
    · exact absurd h a
    · exact absurd h b
    · exact absurd h (by omega)

/-- Witness for C6 (amended): a packet with a corrupted secret (one
ASCII byte changed to 64) is rejected and the fresh store is unchanged. -/
theorem discovery_reject_C6_witness :
    discovery_auth (0 :: (64 :: AUTH_KEY.tail ++ List.replicate 7 0))
        ≠ AUTH_KEY ∧
    handle_discovery pad_data_init
        (0 :: (64 :: AUTH_KEY.tail ++ List.replicate 7 0)) "10.0.0.9"
      = pad_data_init :=
  ⟨by decide,
   discovery_reject_C6 pad_data_init
     (0 :: (64 :: AUTH_KEY.tail ++ List.replicate 7 0)) "10.0.0.9"
     (Or.inr (Or.inl (by decide)))⟩

/-- Counterexample to C6 as stated: `bad_token_packet` carries the
secret followed by the non-ASCII byte 200 before the null padding, so
its token trimmed at the first null byte does *not* equal the secret;
yet the ASCII decode drops that byte, the packet is accepted, and slot
0's record is modified (its address becomes the sender's). -/
theorem discovery_reject_C6_counterexample :
    spec_trimmed_token bad_token_packet ≠ AUTH_KEY ∧
    bad_token_packet.length = DISCOVERY_SIZE ∧
    discovery_pad_num bad_token_packet < n_pads ∧
    (handle_discovery pad_data_init bad_token_packet "10.0.0.7")[0]?.map
        Pad.ip_address = some "10.0.0.7" ∧
    pad_data_init[0]?.map Pad.ip_address = some "" := by
  decide

/-- C1 (amended): an accepted discovery packet rebinds only the targeted
slot — that slot's `ip_address` is replaced by the sender's address
(latest discovery wins) and every other slot is left untouched.  The
store does not enforce global uniqueness of addresses across slots. -/
theorem discovery_binding_C1 (pads : List Pad) (data : List Nat)
    (ip : String)
    (h1 : ¬ data.length < DISCOVERY_SIZE)
    (h2 : discovery_auth data = AUTH_KEY)
    (h3 : discovery_pad_num data < n_pads)
    (h4 : discovery_pad_num data < pads.length) :
    ((handle_discovery pads data ip)[discovery_pad_num data]?.map
        Pad.ip_address = some ip) ∧
    (∀ j, j ≠ discovery_pad_num data →
      (handle_discovery pads data ip)[j]? = pads[j]?) := by
  unfold handle_discovery
  rw [if_neg h1, if_neg (by simp [h2]), if_neg (by omega),
    List.getElem?_eq_getElem h4]
  refine ⟨?_, ?_⟩
  · simp [List.getElem?_set_self, h4]
  · intro j hj
    rw [List.getElem?_set_ne (Ne.symm hj)]

/-- Witness for C1 (amended): a valid discovery for slot 2 from
10.0.0.5 binds slot 2 and leaves every other slot unchanged. -/
theorem discovery_binding_C1_witness :
    ((handle_discovery pad_data_init (discovery_packet 2) "10.0.0.5")[2]?.map
        Pad.ip_address = some "10.0.0.5") ∧
    (∀ j, j ≠ 2 →
      (handle_discovery pad_data_init (discovery_packet 2) "10.0.0.5")[j]?
        = pad_data_init[j]?) := by
  have h := discovery_binding_C1 pad_data_init (discovery_packet 2)
    "10.0.0.5" (by decide) (by decide) (by decide) (by decide)
  exact ⟨h.1, h.2⟩

/-- Counterexample to C1 as stated: the fresh store satisfies the
claimed uniqueness invariant, but after two valid discovery packets from
the same address claiming slots 0 and 1, both slots hold the same
non-empty `ip_address`, so the invariant is violated in a reachable
state. -/
theorem discovery_binding_C1_counterexample :
    spec_unique_ip_invariant pad_data_init ∧
    ¬ spec_unique_ip_invariant
        (process_discoveries pad_data_init
          [(discovery_packet 0, "10.0.0.1"),
           (discovery_packet 1, "10.0.0.1")]) ∧
    (process_discoveries pad_data_init
        [(discovery_packet 0, "10.0.0.1"),
         (discovery_packet 1, "10.0.0.1")])[0]?.map Pad.ip_address
      = some "10.0.0.1" ∧
    (process_discoveries pad_data_init
        [(discovery_packet 0, "10.0.0.1"),
         (discovery_packet 1, "10.0.0.1")])[1]?.map Pad.ip_address
      = some "10.0.0.1" := by
  decide

/-- C9: every ticker pass increments each slot's `last_seen` by exactly
one and the staleness colour of the result is red exactly when the new
age exceeds 30; a telemetry update and an accepted discovery packet
reset the age to 0 with a fresh (black) colour immediately; and neither
discovery handling nor telemetry application ever increases any slot's
age — the ticker is the only age-increasing operation among the store's
writers. -/
theorem staleness_C9 (pads : List Pad) (i : Nat) (data : List Nat)
    (ip : String) (t : TelemetryValues) (pad : Pad) :
    ((timer_step pads)[i]?.map Pad.last_seen
        = pads[i]?.map fun p => p.last_seen + 1) ∧
    (∀ p, (timer_step pads)[i]? = some p →
      (p.last_seen_color = "red" ↔ 30 < p.last_seen)) ∧
    ((apply_telemetry pad ip t).last_seen = 0 ∧
      (apply_telemetry pad ip t).last_seen_color = "black") ∧
    (¬ data.length < DISCOVERY_SIZE → discovery_auth data = AUTH_KEY →
      discovery_pad_num data < n_pads →
      discovery_pad_num data < pads.length →
      ((handle_discovery pads data ip)[discovery_pad_num data]?.map
          Pad.last_seen = some 0 ∧
        (handle_discovery pads data ip)[discovery_pad_num data]?.map
          Pad.last_seen_color = some "black")) ∧
    (∀ (j : Nat) (p q : Pad), (handle_discovery pads data ip)[j]? = some p →
      pads[j]? = some q → p.last_seen ≤ q.last_seen) ∧
    (∀ (j : Nat) (p q : Pad), (apply_telemetry_store pads i ip t)[j]? = some p →
      pads[j]? = some q → p.last_seen ≤ q.last_seen) := by
  refine ⟨?_, ?_, ⟨rfl, rfl⟩, ?_, ?_, ?_⟩
  · simp only [timer_step, List.getElem?_map]
    cases pads[i]? <;> rfl
  · intro p hp
    simp only [timer_step, List.getElem?_map] at hp
    cases hq : pads[i]? with
    | none => rw [hq] at hp; exact Option.noConfusion hp
    | some q =>
        rw [hq] at hp
        injection hp with hp
        subst hp
        by_cases h : 30 < q.last_seen + 1 <;> simp [h]
  · intro h1 h2 h3 h4
    unfold handle_discovery
    rw [if_neg h1, if_neg (by simp [h2]), if_neg (by omega),
      List.getElem?_eq_getElem h4]
    constructor <;> simp [List.getElem?_set_self, h4]
  · intro j p q hp hq
    unfold handle_discovery at hp
    split_ifs at hp
    · rw [hp] at hq; injection hq with hq; rw [hq]
    · rw [hp] at hq; injection hq with hq; rw [hq]
    · rw [hp] at hq; injection hq with hq; rw [hq]
    · cases hm : pads[discovery_pad_num data]? with
      | none =>
          rw [hm] at hp
          rw [hp] at hq; injection hq with hq; rw [hq]
      | some pad0 =>
          rw [hm] at hp
          have hk : discovery_pad_num data < pads.length := by
            by_contra hk
            rw [List.getElem?_eq_none (by omega)] at hm
            exact Option.noConfusion hm
          by_cases hjk : j = discovery_pad_num data
          · subst hjk
            rw [List.getElem?_set_self hk] at hp
            injection hp with hp
            rw [← hp]
            exact Nat.zero_le _
          · rw [List.getElem?_set_ne (Ne.symm hjk)] at hp
            rw [hp] at hq; injection hq with hq; rw [hq]
  · intro j p q hp hq
    unfold apply_telemetry_store at hp
    cases hm : pads[i]? with
    | none =>
        rw [hm] at hp
        rw [hp] at hq; injection hq with hq; rw [hq]
    | some pad0 =>
        rw [hm] at hp
        have hk : i < pads.length := by
          by_contra hk
          rw [List.getElem?_eq_none (by omega)] at hm
          exact Option.noConfusion hm
        by_cases hji : j = i
        · subst hji
          rw [List.getElem?_set_self hk] at hp
          injection hp with hp
          rw [← hp]
          exact Nat.zero_le _
        · rw [List.getElem?_set_ne (Ne.symm hji)] at hp
          rw [hp] at hq; injection hq with hq; rw [hq]

/-- Witness for C9 on a fresh store: one ticker pass takes slot 0's age
from 0 to 1 and keeps it fresh; a telemetry frame and a valid discovery
packet for slot 0 both leave the age at 0 and the colour black; and
neither handler increases the age. -/
theorem staleness_C9_witness :
    ((timer_step pad_data_init)[0]?.map Pad.last_seen
        = pad_data_init[0]?.map fun p => p.last_seen + 1) ∧
    (({ Pad.init with last_seen := 1, last_seen_color := "black" } :
        Pad).last_seen_color = "red" ↔
      30 < ({ Pad.init with last_seen := 1, last_seen_color := "black" } :
        Pad).last_seen) ∧
    ((apply_telemetry Pad.init "10.0.0.3" ⟨1, -60, false, false, 0⟩).last_seen
        = 0 ∧
      (apply_telemetry Pad.init "10.0.0.3"
        ⟨1, -60, false, false, 0⟩).last_seen_color = "black") ∧
    ((handle_discovery pad_data_init (discovery_packet 0)
          "10.0.0.3")[discovery_pad_num (discovery_packet 0)]?.map
        Pad.last_seen = some 0 ∧
      (handle_discovery pad_data_init (discovery_packet 0)
          "10.0.0.3")[discovery_pad_num (discovery_packet 0)]?.map
        Pad.last_seen_color = some "black") ∧
    (({ Pad.init with ip_address := "10.0.0.3" } : Pad).last_seen
        ≤ Pad.init.last_seen) ∧
    ((apply_telemetry Pad.init "10.0.0.3" ⟨1, -60, false, false, 0⟩).last_seen
        ≤ Pad.init.last_seen) := by
  have h := staleness_C9 pad_data_init 0 (discovery_packet 0) "10.0.0.3"
    ⟨1, -60, false, false, 0⟩ Pad.init
  exact ⟨h.1, h.2.1 _ (by decide), h.2.2.1,
    h.2.2.2.1 (by decide) (by decide) (by decide) (by decide),
    h.2.2.2.2.1 0 _ Pad.init (by decide) (by decide),
    h.2.2.2.2.2 0 _ Pad.init (by decide) (by decide)⟩

lemma drain_frames_short (b : List Nat) (h : b.length < TELEMETRY_SIZE) :
    drain_frames b = ([], b) := by
  unfold drain_frames
  rw [dif_neg (by omega)]

lemma drain_frames_long (b : List Nat) (h : TELEMETRY_SIZE ≤ b.length) :
    drain_frames b =
      (b.take TELEMETRY_SIZE :: (drain_frames (b.drop TELEMETRY_SIZE)).1,
       (drain_frames (b.drop TELEMETRY_SIZE)).2) := by
  conv_lhs => unfold drain_frames
  rw [dif_pos h]

lemma drain_frames_snd_lt_aux :
    ∀ (n : Nat) (b : List Nat), b.length ≤ n →
      (drain_frames b).2.length < TELEMETRY_SIZE := by
  have hsz : TELEMETRY_SIZE = 12 := rfl
  intro n
  induction n with
  | zero =>
      intro b hb
      rw [drain_frames_short b (by omega)]
      show b.length < TELEMETRY_SIZE
      omega
  | succ n ih =>
      intro b hb
      by_cases h : TELEMETRY_SIZE ≤ b.length
      · rw [drain_frames_long b h]
        exact ih (b.drop TELEMETRY_SIZE)
          (by simp only [List.length_drop]; omega)
      · rw [drain_frames_short b (by omega)]
        show b.length < TELEMETRY_SIZE
        omega

lemma drain_frames_snd_lt (b : List Nat) :
    (drain_frames b).2.length < TELEMETRY_SIZE :=
  drain_frames_snd_lt_aux b.length b le_rfl

lemma drain_frames_append_aux :
    ∀ (n : Nat) (x y : List Nat), x.length ≤ n →
      drain_frames (x ++ y) =
        ((drain_frames x).1 ++ (drain_frames ((drain_frames x).2 ++ y)).1,
         (drain_frames ((drain_frames x).2 ++ y)).2) := by
  have hsz : TELEMETRY_SIZE = 12 := rfl
  intro n
  induction n with
  | zero =>
      intro x y hx
      have : x = [] := List.eq_nil_of_length_eq_zero (by omega)
      subst this
      rw [drain_frames_short [] (by omega)]
      simp
  | succ n ih =>
      intro x y hx
      by_cases h : TELEMETRY_SIZE ≤ x.length
      · have hxy : TELEMETRY_SIZE ≤ (x ++ y).length := by
          simp only [List.length_append]; omega
        rw [drain_frames_long (x ++ y) hxy, drain_frames_long x h]
        have htake : (x ++ y).take TELEMETRY_SIZE = x.take TELEMETRY_SIZE := by
          exact List.take_append_of_le_length h
        have hdrop : (x ++ y).drop TELEMETRY_SIZE = x.drop TELEMETRY_SIZE ++ y := by
          exact List.drop_append_of_le_length h
        have hlen : (x.drop TELEMETRY_SIZE).length ≤ n := by
          simp only [List.length_drop]; omega
        rw [htake, hdrop, ih (x.drop TELEMETRY_SIZE) y hlen]
        simp
      · rw [drain_frames_short x (by omega)]
        simp

lemma drain_frames_append (x y : List Nat) :
    drain_frames (x ++ y) =
      ((drain_frames x).1 ++ (drain_frames ((drain_frames x).2 ++ y)).1,
       (drain_frames ((drain_frames x).2 ++ y)).2) :=
  drain_frames_append_aux x.length x y le_rfl

/-- The telemetry loop over any chunking of the stream drains exactly
the complete frames of the concatenated stream, in arrival order. -/
lemma telemetry_process_flatten :
    ∀ (chunks : List (List Nat)) (buffer : List Nat),
      buffer.length < TELEMETRY_SIZE → (∀ c ∈ chunks, c ≠ []) →
      telemetry_process chunks buffer
        = (drain_frames (buffer ++ chunks.flatten)).1 := by
  intro chunks
  induction chunks with
  | nil =>
      intro buffer hb _
      rw [telemetry_process]
      simp [drain_frames_short buffer hb]
  | cons c cs ih =>
      intro buffer hb hne
      have hc : c.isEmpty = false := by
        simp [List.isEmpty_iff, hne c (by simp)]
      rw [telemetry_process]
      simp only [hc, Bool.false_eq_true, if_false, List.flatten_cons]
      rw [← List.append_assoc, drain_frames_append (buffer ++ c) cs.flatten,
        ih (drain_frames (buffer ++ c)).2 (drain_frames_snd_lt _)
          (fun d hd => hne d (by simp [hd]))]

/-- C3: a byte stream containing two concatenated valid 12-byte frames,
delivered to the telemetry loop in any sequence of non-empty reads,
yields exactly two applied updates, in arrival order; the loop decodes
and dequeues every complete frame the buffer holds, so several frames
may come out of the buffer after a single read. -/
theorem telemetry_frames_C3 (chunks : List (List Nat)) (f1 f2 : List Nat)
    (h1 : f1.length = TELEMETRY_SIZE) (h2 : f2.length = TELEMETRY_SIZE)
    (hne : ∀ c ∈ chunks, c ≠ [])
    (hflat : chunks.flatten = f1 ++ f2) :
    telemetry_process chunks [] = [f1, f2] ∧
    (telemetry_process chunks []).map parse_telemetry
      = [parse_telemetry f1, parse_telemetry f2] := by
  have hsz : (0 : Nat) < TELEMETRY_SIZE := by decide
  have hmain : telemetry_process chunks [] = [f1, f2] := by
    rw [telemetry_process_flatten chunks [] (by simpa using hsz) hne,
      List.nil_append, hflat,
      drain_frames_long (f1 ++ f2) (by simp [List.length_append, h1]),
      List.take_left' h1, List.drop_left' h1,
      drain_frames_long f2 (by omega),
      List.take_of_length_le (le_of_eq h2),
      List.drop_eq_nil_of_le (le_of_eq h2),
      drain_frames_short [] (by simpa using hsz)]
  exact ⟨hmain, by rw [hmain]; rfl⟩

/-- Witness for C3: the two concrete frames arrive in one single read,
and both are decoded from that read, in order. -/
theorem telemetry_frames_C3_witness :
    telemetry_process
        [([10, 0, 0, 0, 0, 0, 0, 0, 1, 1, 3, 0] ++
          [20, 0, 0, 0, 0, 0, 0, 0, 0, 0, 4, 0] : List Nat)] []
      = [[10, 0, 0, 0, 0, 0, 0, 0, 1, 1, 3, 0],
         [20, 0, 0, 0, 0, 0, 0, 0, 0, 0, 4, 0]] :=
  (telemetry_frames_C3
    [([10, 0, 0, 0, 0, 0, 0, 0, 1, 1, 3, 0] ++
      [20, 0, 0, 0, 0, 0, 0, 0, 0, 0, 4, 0] : List Nat)]
    [10, 0, 0, 0, 0, 0, 0, 0, 1, 1, 3, 0]
    [20, 0, 0, 0, 0, 0, 0, 0, 0, 0, 4, 0]
    (by decide) (by decide) (by decide) (by decide)).1

/-- C7: whenever a worker's connection attempt succeeds, its first
observable action is transmitting the slot's currently stored persistent
mask as one byte, before any telemetry frame is processed; the re-sync
outcome is recorded in the command history, and a failed re-sync is
recorded as a delivery failure while the telemetry loop still runs (the
worker is not terminated). -/
theorem worker_resync_C7 (cs : Nat → Nat) (hist : Nat → CommandHistory)
    (pad_num : Nat) (send_ok : Bool) (chunks : List (List Nat)) (now : Rat) :
    ((connection_attempt cs hist pad_num true send_ok chunks now).1
        = WorkerEvent.sent (cs pad_num % 256) ::
            (telemetry_process chunks []).map WorkerEvent.telemetry_applied) ∧
    ((connection_attempt cs hist pad_num true send_ok chunks now).2 pad_num
        = ⟨cs pad_num, send_ok, now⟩) ∧
    (send_ok = false →
      (connection_attempt cs hist pad_num true send_ok chunks now).2 pad_num
        = ⟨cs pad_num, false, now⟩) := by
  refine ⟨rfl, ?_, ?_⟩
  · simp [connection_attempt, Function.update_same]
  · intro h
    subst h
    simp [connection_attempt, Function.update_same]

/-- Witness for C7: a connected worker with stored mask 5 and a failing
re-sync write still reports the send first, records the failure, and
processes the (empty) telemetry stream. -/
theorem worker_resync_C7_witness :
    ((connection_attempt (fun _ => 5) (fun _ => command_history_init) 0
          true false [] 3).1
        = WorkerEvent.sent ((fun _ => 5 : Nat → Nat) 0 % 256) ::
            (telemetry_process [] []).map WorkerEvent.telemetry_applied) ∧
    ((connection_attempt (fun _ => 5) (fun _ => command_history_init) 0
          true false [] 3).2 0 = ⟨5, false, 3⟩) := by
  have h := worker_resync_C7 (fun _ => 5) (fun _ => command_history_init) 0
    false [] 3
  exact ⟨h.1, h.2.2 rfl⟩
